import Mathlib

/-!
# Verification of the fault-injector scheduled subprocess execution pool

A shallow embedding of `fault_injector/injection/thread_pool.py`:
the worker-thread primitives (`ThreadWrapper`), the injection pool's
clock corrector (`correct_time`), pool shutdown (`stop`), the scheduled
task executor (`_execute_task` with its duration-supervision loop), the
terminal-event emitter (`_process_result`) and the argument formatter
(`format_task_args`).

Wall-clock instants and durations are modelled as rationals; the
nondeterministic environment (clock readings, child-process behaviour,
races on the worker's terminate flag) is passed in explicitly as oracle
arguments, so every definition is executable and every run is a pure
function of its inputs.
-/

namespace FaultInjector

/-- Modelled from the spec (util/misc.py is not under src/): the
privilege-elevation sentinel token scanned for in argv — the name of the
privilege-elevation executable. -/
def SUDO_ID : String := "sudo"

/-- Modelled from the spec (util/misc.py is not under src/): the
"all cores" sentinel value for the NUMA core configuration. -/
def VALUE_ALL_CORES : String := "all"

/-- Modelled from the spec (io/task.py is not under src/): the sentinel
duration meaning "no limit"; the executor compares `task.duration` against
it to decide whether a timeout is set, and `_execute_task` warns when a
fault has duration 0, so the sentinel is 0. -/
def VALUE_DUR_NO_LIM : Rat := 0

/-- The task record (io/task.py): command string, expected duration,
scheduled start timestamp on the workload time axis, fault/benchmark flag
and optional CPU-affinity core selection. -/
structure Task where
  args : String
  duration : Rat
  timestamp : Rat
  isFault : Bool
  cores : Option String
deriving DecidableEq, Repr

/-- A spawned subprocess handle (`subprocess.Popen`): only its exit status
is relevant to the pool. `returncode = none` means still running. -/
structure Proc where
  returncode : Option Int
deriving DecidableEq, Repr

/-- The argument payload handed to `start_process`: a token list for
ordinary tasks, or a single joined string for shell-script tasks
(`' '.join(...)` at `_execute_task`). -/
inductive Args
  | list (xs : List String)
  | str (s : String)
deriving DecidableEq, Repr

/-- Python's `any(arg == SUDO_ID for arg in args)` inside
`ThreadWrapper.start_process`. When `args` is a token list, `arg` ranges
over the tokens; when `args` is a joined string (the shell-script case),
Python iterates over the *characters* of the string, each compared as a
one-character string against `SUDO_ID`. -/
def argsContainSudo : Args → Bool
  | .list xs => xs.any (fun a => a.data == SUDO_ID.data)
  | .str s => s.data.any (fun c => [c] == SUDO_ID.data)

/-- `ThreadWrapper.start_process` (thread_pool.py lines 94-113): spawns a
subprocess unless the thread is flagged for termination or the argv
requests privilege elevation without `root`; returns `none` on refusal or
on spawn failure (`OSError`/`FileNotFoundError`, modelled by the oracle
`popenOk`). -/
def ThreadWrapper.start_process (hasToFinish : Bool) (args : Args)
    (root : Bool) (popenOk : Bool) : Option Proc :=
  if ¬hasToFinish ∧ (root ∨ ¬argsContainSudo args) then
    if popenOk then some ⟨none⟩ else none
  else none

/-- `InjectionThreadPool.CORRECTION_THRESHOLD`. -/
def CORRECTION_THRESHOLD : Rat := 60

/-- `InjectionThreadPool.correct_time` (lines 328-343): compares the
controller's workload timestamp against the locally derived one and, when
the drift exceeds the threshold during an active session, adds one tenth
of the drift to the correction factor. Returns the new correction
factor. -/
def InjectionThreadPool.correct_time (now timestamp sessionStart sessionStartAbs
    correctionFactor : Rat) : Rat :=
  let my_timestamp := now - sessionStartAbs + sessionStart
  let diff := timestamp - my_timestamp - correctionFactor
  if CORRECTION_THRESHOLD < |diff| ∧ 0 < sessionStartAbs then
    correctionFactor + (1 / 10) * diff
  else correctionFactor

/-- Whitespace tokenizer on character lists (helper for the model of
`shlex.split`), accumulating the current token in reverse. -/
def splitWsAux : List Char → List Char → List String
  | [], acc => if acc.isEmpty then [] else [String.mk acc.reverse]
  | c :: cs, acc =>
    if c = ' ' then
      if acc.isEmpty then splitWsAux cs []
      else String.mk acc.reverse :: splitWsAux cs []
    else splitWsAux cs (c :: acc)

/-- Modelled from the spec (`shlex.split` is external): shell-compatible
tokenization of the command string, modelled as whitespace splitting; the
`posix` flag selects the host's quoting rules and does not affect the
whitespace model. -/
def shlexSplit (s : String) (posix : Bool) : List String :=
  splitWsAux s.data []

/-- Modelled from the spec (util/misc.py is not under src/):
`format_numa_command` prepends a platform-appropriate CPU-pinning command
to the argv. -/
def format_numa_command (args : List String) (cores : Option String) :
    List String :=
  "numactl" :: ("--physcpubind=" ++ cores.getD "") :: args

/-- Modelled from the spec (util/misc.py is not under src/): a task is a
shell script when its command is a path ending in a recognized
shell-script suffix or begins with a shebang marker. -/
def is_shell_script (args : String) : Bool :=
  let tok := (splitWsAux args.data []).headD ""
  tok.data.reverse.take 3 == ['h', 's', '.'] ||
    (match args.data with
     | '#' :: '!' :: _ => true
     | _ => false)

/-- `InjectionThreadPool.format_task_args` (lines 520-539): tokenizes the
command, arbitrates the per-task core selection against the pool default
(`numa_cores`), mutates `task.cores` to the effective selection and wraps
the argv with the pinning prefix when the class default is not None.
Returns the mutated task together with the formatted argv. -/
def InjectionThreadPool.format_task_args
    (numaCores : Option String × Option String) (posixShell : Bool)
    (task : Task) : Task × List String :=
  let task_args := shlexSplit task.args posixShell
  let default_cores := if task.isFault then numaCores.1 else numaCores.2
  let user_cores :=
    if task.cores ≠ none ∧ default_cores = some VALUE_ALL_CORES then
      task.cores
    else default_cores
  let task2 : Task := { task with cores := user_cores }
  let task_args2 :=
    if default_cores ≠ none then format_numa_command task_args task2.cores
    else task_args
  (task2, task_args2)

/-- A lifecycle message broadcast on the message channel, following the
event shapes of the message builder (network/msg_builder.py is not under
src/, its event shapes are modelled from the spec):
`start(task, ts)`, `restart(task, ts, prior_code_or_null)`,
`end(task, ts, output_or_null)`, `error(task, ts, code, output_or_null)`.
The timestamp carried is the one `_execute_task` wrote into
`task.timestamp` just before building the message. -/
inductive Event
  | start (ts : Rat)
  | restart (ts : Rat) (priorCode : Option Int)
  | ended (ts : Option Rat) (output : Option String)
  | error (ts : Option Rat) (code : Int) (output : Option String)
deriving DecidableEq, Repr

/-- `InjectionThreadPool._inform_start` (lines 474-484): writes the given
timestamp into `task.timestamp` and builds the start message from the
mutated task. Returns the mutated task and the broadcast message. -/
def InjectionThreadPool.inform_start (task : Task) (timestamp : Rat) :
    Task × Option Event :=
  let task2 : Task := { task with timestamp := timestamp }
  (task2, some (Event.start task2.timestamp))

/-- `InjectionThreadPool._inform_restart` (lines 486-498): writes the
timestamp into the task, carries the prior return code (null when the code
was zero) and builds the restart message. -/
def InjectionThreadPool.inform_restart (task : Task) (timestamp : Rat)
    (rcode : Int) : Task × Option Event :=
  let task2 : Task := { task with timestamp := timestamp }
  let error : Option Int := if rcode = 0 then none else some rcode
  (task2, some (Event.restart task2.timestamp error))

/-- `InjectionThreadPool._process_result` (lines 500-518): nulls the
captured output when output logging is off, the task is a fault, or the
output is empty; builds an error message when the return code is nonzero
and an end message otherwise; and broadcasts it only when the worker has
not been flagged for termination. Returns the broadcast message, `none`
when suppressed. -/
def InjectionThreadPool.process_result (logOutputs : Bool) (task : Task)
    (timestamp : Option Rat) (rcode : Int) (outdata : String)
    (hasToTerminate : Bool) : Option Event :=
  let outdata2 : Option String :=
    if ¬logOutputs ∨ task.isFault ∨ outdata.length = 0 then none
    else some outdata
  let msg :=
    if rcode ≠ 0 then Event.error timestamp rcode outdata2
    else Event.ended timestamp outdata2
  if ¬hasToTerminate then some msg else none

/-- The pool configuration and clock state consulted by
`_execute_task`: the constructor flags of `InjectionThreadPool` together
with the session timestamps and correction factor. -/
structure ExecCfg where
  skipExpired : Bool
  retryTasks : Bool
  retryOnError : Bool
  logOutputs : Bool
  root : Bool
  posixShell : Bool
  numaCores : Option String × Option String
  sessionStart : Rat
  sessionStartAbs : Rat
  correctionFactor : Rat
deriving DecidableEq, Repr

/-- Environment oracle for one lifetime of a child inside the duration
supervision loop of `_execute_task`: either the `p.wait(timeout)` call
times out (the child outlived the remaining budget; `killTime` is the
clock reading after the kill), or the child exits at wall time `exitTime`
with `code`; in the latter case, if the restart branch is taken, `chunk`
is the partial output drained by `p.communicate()`, `respawnTerm` is the
worker's terminate flag as read inside the re-spawn's `start_process`,
`respawnOk` tells whether the re-spawn's `Popen` succeeds, and
`respawnTime` is the clock reading passed to `_inform_restart`. -/
inductive Round
  | timeout (killTime : Rat)
  | exit (exitTime : Rat) (code : Int) (chunk : Option String)
      (respawnTerm : Bool) (respawnOk : Bool) (respawnTime : Rat)
deriving DecidableEq, Repr

/-- Outcome of the duration supervision loop (`while task_timeout > 0`,
lines 435-456, plus the `TimeoutExpired` handler, lines 458-461):
`ok` carries the current handle, end time, return code, accumulated
output, restart events emitted, argv of every `start_process` call made
inside the loop, and whether `force_stop_process` was called;
`noneDeref` marks the execution in which `p.wait` is reached with
`p = None` (the `AttributeError` crash); `outOfScript` means the oracle
script ended while the loop would continue. -/
inductive LoopOut
  | ok (p : Option Proc) (endTime : Option Rat) (rcode : Int)
      (out : String) (events : List Event) (spawnCalls : List Args)
      (forceStopped : Bool)
  | noneDeref (events : List Event) (spawnCalls : List Args)
  | outOfScript (events : List Event) (spawnCalls : List Args)
deriving DecidableEq, Repr

/-- The events accumulated by a loop outcome. -/
def LoopOut.eventsOf : LoopOut → List Event
  | .ok _ _ _ _ events _ _ => events
  | .noneDeref events _ => events
  | .outOfScript events _ => events

/-- The argv of the `start_process` calls made by a loop outcome. -/
def LoopOut.spawnCallsOf : LoopOut → List Args
  | .ok _ _ _ _ _ calls _ => calls
  | .noneDeref _ calls => calls
  | .outOfScript _ calls => calls

/-- The duration supervision loop of `_execute_task` (lines 433-461).
Each iteration waits on the current handle with the remaining budget:
a timeout kills the child (`force_stop_process`) and reports return code
0; an early exit recomputes the remaining budget and either breaks (budget
exhausted, retries off, or nonzero code with retry-on-error off) or
accumulates the partial output, re-spawns the same argv via
`start_process` and emits a restart event carrying the prior code.
Waiting on an absent handle is the `None`-dereference crash. -/
def superviseLoop (retryTasks retryOnError root : Bool) (args : Args)
    (duration startTime : Rat) :
    List Round → Option Proc → Rat → Option Rat → Int → String →
    List Event → List Args → LoopOut
  | rounds, p, timeout, endTime, rcode, out, events, spawnCalls =>
    if timeout ≤ 0 then
      .ok p endTime rcode out events spawnCalls false
    else
      match p with
      | none => .noneDeref events spawnCalls
      | some _ =>
        match rounds with
        | [] => .outOfScript events spawnCalls
        | Round.timeout killTime :: _ =>
          .ok (some ⟨some (-15)⟩) (some killTime) 0 out events spawnCalls
            true
        | Round.exit exitTime code chunk respawnTerm respawnOk respawnTime
            :: rest =>
          let timeout2 := duration - (exitTime - startTime)
          if retryTasks ∧ 0 < timeout2 then
            if code ≠ 0 ∧ ¬retryOnError then
              .ok p (some exitTime) code out events spawnCalls false
            else
              let out2 := out ++ chunk.getD ""
              let p2 := ThreadWrapper.start_process respawnTerm args root
                respawnOk
              let events2 := events ++
                [Event.restart respawnTime
                  (if code = 0 then none else some code)]
              superviseLoop retryTasks retryOnError root args duration
                startTime rest p2 timeout2 (some exitTime) code out2
                events2 (spawnCalls ++ [args])
          else
            .ok p (some exitTime) code out events spawnCalls false

/-- The task after `format_task_args` mutated its `cores` field
(line 403 binds the formatted argv; the mutation happens inside the
formatter). -/
def formattedTask (cfg : ExecCfg) (task : Task) : Task :=
  (InjectionThreadPool.format_task_args cfg.numaCores cfg.posixShell
    task).1

/-- The payload handed to `start_process` (lines 401-403): the formatted
argv joined into a single string for shell-script tasks, the token list
otherwise. -/
def taskArgsOf (cfg : ExecCfg) (task : Task) : Args :=
  let fmtArgs :=
    (InjectionThreadPool.format_task_args cfg.numaCores cfg.posixShell
      task).2
  if is_shell_script task.args then
    .str (String.intercalate " " fmtArgs)
  else .list fmtArgs

/-- Observable outcome of one `_execute_task` run: the messages broadcast
in order, the argv of every `start_process` call made, whether the run
crashed by dereferencing a `None` handle, whether the oracle script was
exhausted before the run finished, whether `force_stop_process` was
called on the child, and the return code passed to `_process_result`
(none when the run returned or crashed before reaching it). -/
structure ExecResult where
  events : List Event
  spawnCalls : List Args
  crashed : Bool
  stuck : Bool
  forceStopped : Bool
  finalRcode : Option Int
deriving DecidableEq, Repr

/-- The tail of `_execute_task` (lines 462-467): drain the remaining
output of the final child with `p.communicate()` — a crash if the handle
is `None` — and broadcast the terminal message via `_process_result`. -/
def finalizeTask (cfg : ExecCfg) (task : Task) (events : List Event)
    (spawnCalls : List Args) (p : Option Proc) (endTime : Option Rat)
    (rcode : Int) (out : String) (finalChunk : Option String)
    (termAtEmit : Bool) (forceStopped : Bool) : ExecResult :=
  match p with
  | none =>
    { events := events, spawnCalls := spawnCalls, crashed := true,
      stuck := false, forceStopped := forceStopped, finalRcode := none }
  | some _ =>
    let outdata := out ++ finalChunk.getD ""
    { events := events ++
        (InjectionThreadPool.process_result cfg.logOutputs task endTime
          rcode outdata termAtEmit).toList,
      spawnCalls := spawnCalls, crashed := false, stuck := false,
      forceStopped := forceStopped, finalRcode := some rcode }

/-- The body of `_execute_task` after the wait-or-skip step (lines
401-467): shape the command, spawn via `start_process` (handling the
`None` result explicitly — terminal error if the worker is live, silent
return if it is terminating), emit the start event stamped with the raw
`time()` reading taken just before the spawn, run the duration
supervision loop (or a single unbounded wait when the duration is the
no-limit sentinel), then drain output and emit the terminal message.

Oracles: `termAtSpawn` and `termAtNoneCheck` are the worker's terminate
flag as read inside `start_process` and at the `p is None` check;
`popenOk` tells whether the initial `Popen` succeeds; `tStart` is the
`time()` reading bound to `task_start_time`; `rounds` scripts the
supervision loop; `finalChunk` is the final `p.communicate()` output;
`termAtEmit` is the terminate flag at terminal emission. -/
def executeTaskBody (cfg : ExecCfg) (task : Task) (termAtSpawn : Bool)
    (popenOk : Bool) (tStart : Rat) (termAtNoneCheck : Bool)
    (rounds : List Round) (finalChunk : Option String)
    (termAtEmit : Bool) : ExecResult :=
  let task2 := formattedTask cfg task
  let task_args := taskArgsOf cfg task
  let task_timeout : Option Rat :=
    if task2.duration ≠ VALUE_DUR_NO_LIM then some task2.duration
    else none
  let p := ThreadWrapper.start_process termAtSpawn task_args cfg.root
    popenOk
  match p with
  | none =>
    if ¬termAtNoneCheck then
      { events := (InjectionThreadPool.process_result cfg.logOutputs task2
          (some tStart) (-1) "" termAtEmit).toList,
        spawnCalls := [task_args], crashed := false, stuck := false,
        forceStopped := false, finalRcode := some (-1) }
    else
      { events := [], spawnCalls := [task_args], crashed := false,
        stuck := false, forceStopped := false, finalRcode := none }
  | some p0 =>
    let startEvents := (InjectionThreadPool.inform_start task2
      tStart).2.toList
    match task_timeout with
    | none =>
      match rounds with
      | Round.exit exitTime code _ _ _ _ :: _ =>
        finalizeTask cfg task2 startEvents [task_args] (some p0)
          (some exitTime) code "" finalChunk termAtEmit false
      | _ =>
        { events := startEvents, spawnCalls := [task_args],
          crashed := false, stuck := true, forceStopped := false,
          finalRcode := none }
    | some dur =>
      match superviseLoop cfg.retryTasks cfg.retryOnError cfg.root
        task_args dur tStart rounds (some p0) dur none 0 "" []
        [task_args] with
      | .ok pEnd endTime rcode out evs calls fs =>
        finalizeTask cfg task2 (startEvents ++ evs) calls pEnd endTime
          rcode out finalChunk termAtEmit fs
      | .noneDeref evs calls =>
        { events := startEvents ++ evs, spawnCalls := calls,
          crashed := true, stuck := false, forceStopped := false,
          finalRcode := none }
      | .outOfScript evs calls =>
        { events := startEvents ++ evs, spawnCalls := calls,
          crashed := false, stuck := true, forceStopped := false,
          finalRcode := none }

/-- The scheduled-start delay computed at lines 387-390:
`elapsed = time() - session_start_abs + correction_factor` and
`time_to_task = task.timestamp - session_start - elapsed`. -/
def timeToTask (cfg : ExecCfg) (task : Task) (tElapsed : Rat) : Rat :=
  task.timestamp - cfg.sessionStart -
    (tElapsed - cfg.sessionStartAbs + cfg.correctionFactor)

/-- `InjectionThreadPool._execute_task` (lines 380-472): compute the
delay to the scheduled start; wait on the shared sleep condition when it
is positive; when it is negative and the skip-expired policy is on, emit
a terminal error with code -1 via `_process_result` and return without
calling `start_process`; otherwise run the executor body. `tElapsed` is
the `time()` reading at line 388 and `tSkip` the one passed to
`_process_result` on the skip path. -/
def executeTask (cfg : ExecCfg) (task : Task) (tElapsed tSkip : Rat)
    (termAtSpawn : Bool) (popenOk : Bool) (tStart : Rat)
    (termAtNoneCheck : Bool) (rounds : List Round)
    (finalChunk : Option String) (termAtEmit : Bool) : ExecResult :=
  if timeToTask cfg task tElapsed < 0 ∧ cfg.skipExpired then
    { events := (InjectionThreadPool.process_result cfg.logOutputs task
        (some tSkip) (-1) "" termAtEmit).toList,
      spawnCalls := [], crashed := false, stuck := false,
      forceStopped := false, finalRcode := some (-1) }
  else
    executeTaskBody cfg task termAtSpawn popenOk tStart termAtNoneCheck
      rounds finalChunk termAtEmit

/-- Per-worker state (`ThreadWrapper`): the terminate flag and the
handle of the underlying subprocess, if any. -/
structure Worker where
  terminateFlag : Bool
  process : Option Proc
deriving DecidableEq, Repr

/-- `ThreadWrapper.terminate` (lines 62-68). -/
def Worker.terminate (w : Worker) : Worker :=
  { w with terminateFlag := true }

/-- `ThreadWrapper.is_active` (lines 81-92): a handle exists and has not
reported an exit code. -/
def Worker.is_active (w : Worker) : Bool :=
  match w.process with
  | some p => p.returncode = none
  | none => false

/-- `ThreadWrapper.force_stop_process` (lines 115-125): polls the handle
and, if the child is still running, terminates it and waits for the exit
code (SIGTERM, reported as -15). Idempotent and safe without a live
process. -/
def Worker.force_stop_process (w : Worker) : Worker :=
  match w.process with
  | some p =>
    if p.returncode = none then { w with process := some ⟨some (-15)⟩ }
    else w
  | none => w

/-- Pool state visible to `InjectionThreadPool.stop`: the lifecycle
flags and worker list of the base `ThreadPool`, the queue semaphore
counter, the session timestamps and the retry flag. -/
structure InjPool where
  initialized : Bool
  terminating : Bool
  workers : List Worker
  queueSem : Nat
  sessionStart : Rat
  sessionStartAbs : Rat
  retryTasks : Bool
deriving DecidableEq, Repr

/-- Trace of the side effects `InjectionThreadPool.stop` performs on
collaborators: number of semaphore releases, whether the shared sleep
condition was notified, and the worker objects at the moment they were
joined (the pool drops them from its list afterwards). -/
structure StopTrace where
  semReleases : Nat
  notifiedAll : Bool
  joinedWorkers : List Worker
deriving DecidableEq, Repr

/-- `InjectionThreadPool.stop` (lines 345-378): when initialized, saves
the retry flag, flags every worker for termination, releases the queue
semaphore once per worker, notifies all waiters on the shared sleep
condition, and — when `kill_abruptly` — disables task restarts and calls
`force_stop_process` on every worker; then joins all workers, clears the
worker list, clears `initialized`, resets both session timestamps to 0
and restores the retry flag. The method does not touch `_terminating`
(only the base `ThreadPool.stop`, which it overrides, sets it). -/
def InjectionThreadPool.stop (kill_abruptly : Bool) (s : InjPool) :
    InjPool × StopTrace :=
  if s.initialized then
    let retry_tasks_old := s.retryTasks
    let ws := s.workers.map Worker.terminate
    let sem := s.queueSem + s.workers.length
    let ws2 := if kill_abruptly then ws.map Worker.force_stop_process
      else ws
    ({ initialized := false, terminating := s.terminating, workers := [],
       queueSem := sem, sessionStart := 0, sessionStartAbs := 0,
       retryTasks := retry_tasks_old },
     { semReleases := s.workers.length, notifiedAll := true,
       joinedWorkers := ws2 })
  else
    (s, { semReleases := 0, notifiedAll := false, joinedWorkers := [] })

/-- Following the spec's words (refinement target, not the code): the
start event is to be stamped with "the actual spawn wall time translated
back through the clock corrector into workload time", i.e. the wall
reading mapped onto the workload axis through the session origin and the
correction factor. -/
def specStartWorkloadTs (cfg : ExecCfg) (wall : Rat) : Rat :=
  wall - cfg.sessionStartAbs + cfg.sessionStart + cfg.correctionFactor

/-- Sample pool configuration: retries enabled (also on error), no active
session offset. -/
def sampleCfgRetry : ExecCfg :=
  { skipExpired := true, retryTasks := true, retryOnError := true,
    logOutputs := true, root := false, posixShell := true,
    numaCores := (none, none), sessionStart := 0, sessionStartAbs := 0,
    correctionFactor := 0 }

/-- Sample benchmark task with a 10-second duration budget scheduled at
the session origin. -/
def sampleTaskRetry : Task :=
  { args := "prog", duration := 10, timestamp := 0, isFault := false,
    cores := none }

/-- Sample pool configuration with an active session whose wall-clock
origin is 100. -/
def sampleCfgSession : ExecCfg :=
  { skipExpired := true, retryTasks := false, retryOnError := false,
    logOutputs := true, root := false, posixShell := true,
    numaCores := (none, none), sessionStart := 0,
    sessionStartAbs := 100, correctionFactor := 0 }

/-- Sample unbounded-duration task scheduled at workload time 200. -/
def sampleTaskScheduled : Task :=
  { args := "prog", duration := 0, timestamp := 200, isFault := false,
    cores := none }

/-- Sample initialized pool with one idle worker. -/
def samplePool : InjPool :=
  { initialized := true, terminating := false,
    workers := [{ terminateFlag := false, process := none }],
    queueSem := 0, sessionStart := 3, sessionStartAbs := 7,
    retryTasks := true }

/-- The terminate flag survives `force_stop_process`. -/
theorem force_stop_process_flag (w : Worker) :
    (Worker.force_stop_process w).terminateFlag = w.terminateFlag := by
  obtain ⟨flag, _ | p⟩ := w
  · rfl
  · simp only [Worker.force_stop_process]
    split <;> rfl

/-- After `force_stop_process` the worker has no running child. -/
theorem force_stop_process_inactive (w : Worker) :
    (Worker.force_stop_process w).is_active = false := by
  obtain ⟨flag, _ | p⟩ := w
  · rfl
  · obtain ⟨_ | rc⟩ := p <;>
      simp [Worker.force_stop_process, Worker.is_active]

/-- C9: `correct_time(ts)` computes
`diff = ts - ((now - session_start_abs) + session_start) - correction_factor`
and, exactly when `|diff|` exceeds 60 seconds and `session_start_abs > 0`,
adds `0.1 * diff` to the correction factor; each such call multiplies the
residual (constant controller offset minus correction factor) by `0.9`,
and when `session_start_abs = 0` the correction factor is unchanged. -/
theorem correct_time_drift_correction (now ts s sabs c : Rat) :
    (sabs = 0 → InjectionThreadPool.correct_time now ts s sabs c = c) ∧
    (¬(CORRECTION_THRESHOLD < |ts - (now - sabs + s) - c| ∧ 0 < sabs) →
      InjectionThreadPool.correct_time now ts s sabs c = c) ∧
    (CORRECTION_THRESHOLD < |ts - (now - sabs + s) - c| → 0 < sabs →
      InjectionThreadPool.correct_time now ts s sabs c =
        c + (1 / 10) * (ts - (now - sabs + s) - c) ∧
      ts - (now - sabs + s) -
          InjectionThreadPool.correct_time now ts s sabs c =
        (9 / 10) * (ts - (now - sabs + s) - c)) := by
  refine ⟨?_, ?_, ?_⟩
  · intro h
    simp [InjectionThreadPool.correct_time, h]
  · intro h
    simp only [InjectionThreadPool.correct_time]
    rw [if_neg h]
  · intro h1 h2
    simp only [InjectionThreadPool.correct_time]
    rw [if_pos ⟨h1, h2⟩]
    constructor
    · rfl
    · ring

/-- C9 witness: with session origin 1, local reading 0 and controller
timestamp 100 the drift is 101 > 60, so the correction factor moves from
0 to 101/10 and the residual shrinks from 101 to 909/10 = 0.9 * 101. -/
theorem correct_time_drift_correction_witness :
    (CORRECTION_THRESHOLD < |(100 : Rat) - (0 - 1 + 0) - 0| ∧
      (0 : Rat) < 1) ∧
    InjectionThreadPool.correct_time 0 100 0 1 0 =
      0 + (1 / 10) * (100 - (0 - 1 + 0) - 0) :=
  ⟨⟨by norm_num [CORRECTION_THRESHOLD], by norm_num⟩,
    ((correct_time_drift_correction 0 100 0 1 0).2.2
      (by norm_num [CORRECTION_THRESHOLD]) (by norm_num)).1⟩

/-- C10: `format_task_args` selects the effective core set — the task's
own cores only when they are set and the class default (fault vs.
benchmark) is the all-cores sentinel, the class default otherwise —
mutates `task.cores` to that selection (all other task fields unchanged),
and wraps the argv with the CPU-pinning prefix exactly when the class
default is not null. -/
theorem format_task_args_affinity_arbitration
    (numaCores : Option String × Option String) (posixShell : Bool)
    (task : Task) :
    let default_cores := if task.isFault then numaCores.1 else numaCores.2
    let effective :=
      if task.cores ≠ none ∧ default_cores = some VALUE_ALL_CORES then
        task.cores
      else default_cores
    let r := InjectionThreadPool.format_task_args numaCores posixShell task
    r.1.cores = effective ∧
    r.1.args = task.args ∧ r.1.duration = task.duration ∧
    r.1.timestamp = task.timestamp ∧ r.1.isFault = task.isFault ∧
    (default_cores ≠ none →
      r.2 = format_numa_command (shlexSplit task.args posixShell)
        effective) ∧
    (default_cores = none →
      r.2 = shlexSplit task.args posixShell) := by
  refine ⟨rfl, rfl, rfl, rfl, rfl, ?_, ?_⟩
  · intro h
    dsimp only [InjectionThreadPool.format_task_args]
    rw [if_pos h]
  · intro h
    dsimp only [InjectionThreadPool.format_task_args]
    rw [if_neg (by simp [h])]

/-- C10 witness: a fault task with its own cores, fault default set to
the all-cores sentinel — the task's own selection survives and the argv
is wrapped with the pinning prefix. -/
theorem format_task_args_affinity_arbitration_witness :
    ((if ((true : Bool) : Prop) then some VALUE_ALL_CORES else none) ≠
        none) ∧
    (InjectionThreadPool.format_task_args (some VALUE_ALL_CORES, none)
      true
      { args := "prog", duration := 1, timestamp := 0, isFault := true,
        cores := some "0-3" }).2 =
      format_numa_command (shlexSplit "prog" true)
        (if (some "0-3" : Option String) ≠ none ∧
            (if ((true : Bool) : Prop) then some VALUE_ALL_CORES
              else none) = some VALUE_ALL_CORES then
          some "0-3"
        else if ((true : Bool) : Prop) then some VALUE_ALL_CORES
          else none) :=
  ⟨by simp,
    ((format_task_args_affinity_arbitration (some VALUE_ALL_CORES, none)
      true
      { args := "prog", duration := 1, timestamp := 0, isFault := true,
        cores := some "0-3" }).2.2.2.2.2.1 (by simp))⟩

/-- C8: at terminal emission, the captured output is replaced by null
whenever output logging is off, or the task is a fault, or the output is
empty; an error event carrying the exit code (and the possibly-null
output) is emitted when the final exit code is nonzero, an end event
otherwise; and nothing is broadcast when the worker's terminate flag is
set at emission time. -/
theorem process_result_terminal_emission (logOutputs : Bool)
    (task : Task) (ts : Option Rat) (rcode : Int) (outdata : String)
    (hasToTerminate : Bool) :
    (hasToTerminate = true →
      InjectionThreadPool.process_result logOutputs task ts rcode outdata
        hasToTerminate = none) ∧
    (hasToTerminate = false → rcode ≠ 0 →
      InjectionThreadPool.process_result logOutputs task ts rcode outdata
        hasToTerminate =
      some (Event.error ts rcode
        (if ¬logOutputs ∨ task.isFault ∨ outdata.length = 0 then none
          else some outdata))) ∧
    (hasToTerminate = false → rcode = 0 →
      InjectionThreadPool.process_result logOutputs task ts rcode outdata
        hasToTerminate =
      some (Event.ended ts
        (if ¬logOutputs ∨ task.isFault ∨ outdata.length = 0 then none
          else some outdata))) := by
  refine ⟨?_, ?_, ?_⟩
  · intro h
    simp [InjectionThreadPool.process_result, h]
  · intro h hc
    simp [InjectionThreadPool.process_result, h, hc]
  · intro h hc
    simp [InjectionThreadPool.process_result, h, hc]

/-- C8 witness: a live worker finishing a benchmark with output "hi" and
exit code 3 broadcasts an error event carrying code 3 and the output. -/
theorem process_result_terminal_emission_witness :
    ((false : Bool) = false ∧ (3 : Int) ≠ 0) ∧
    InjectionThreadPool.process_result true sampleTaskRetry (some 4) 3
      "hi" false =
    some (Event.error (some 4) 3
      (if ¬(true : Bool) ∨ sampleTaskRetry.isFault ∨
          ("hi" : String).length = 0 then none
        else some "hi")) :=
  ⟨⟨rfl, by decide⟩,
    (process_result_terminal_emission true sampleTaskRetry (some 4) 3
      "hi" false).2.1 rfl (by decide)⟩

/-- A single character never equals the multi-character sentinel token:
Python's membership scan over a *string* compares each character
against the whole token. -/
theorem single_char_ne_sudo (c : Char) : ([c] == SUDO_ID.data) = false := by
  simp [SUDO_ID]

/-- Consequently the privilege scan is vacuous on joined-string argv. -/
theorem argsContainSudo_str (s : String) :
    argsContainSudo (Args.str s) = false := by
  simp [argsContainSudo, single_char_ne_sudo]

/-- C4 counterexample: a shell-script command whose token list contains
the privilege-elevation sentinel, passed (as the code does for scripts)
as a single joined string, is spawned by `start_process` even though
`allow_privileged` is false — the claim's refusal does not happen. -/
theorem start_process_shell_string_privilege_counterexample :
    SUDO_ID ∈ shlexSplit "sudo rm -rf /tmp/x" true ∧
    ThreadWrapper.start_process false (Args.str "sudo rm -rf /tmp/x")
      false true = some ⟨none⟩ := by
  constructor
  · decide
  · decide

/-- C4 amended: with `allow_privileged` false, `start_process` refuses
(returns none, creating no subprocess) whenever the argv is a *token
list* containing the sentinel; but when the command is a joined string
(the shell-script case) the character-wise scan never matches the
multi-character sentinel, so a live worker spawns it whenever the
underlying spawn succeeds. -/
theorem start_process_privilege_refusal (hasToFinish : Bool)
    (xs : List String) (popenOk : Bool) (s : String) :
    (SUDO_ID ∈ xs →
      ThreadWrapper.start_process hasToFinish (Args.list xs) false
        popenOk = none) ∧
    (ThreadWrapper.start_process false (Args.str s) false popenOk =
      if popenOk then some ⟨none⟩ else none) := by
  constructor
  · intro h
    have hmem : argsContainSudo (Args.list xs) = true := by
      simp only [argsContainSudo, List.any_eq_true]
      exact ⟨SUDO_ID, h, by simp⟩
    simp [ThreadWrapper.start_process, hmem]
  · simp [ThreadWrapper.start_process, argsContainSudo_str]

/-- C4 witness: a token-list argv containing the sentinel is refused on
a live worker even though the spawn itself would succeed. -/
theorem start_process_privilege_refusal_witness :
    SUDO_ID ∈ ["sudo", "ls"] ∧
    ThreadWrapper.start_process false (Args.list ["sudo", "ls"]) false
      true = none :=
  ⟨by decide,
    (start_process_privilege_refusal false ["sudo", "ls"] true "").1
      (by decide)⟩

/-- C1 counterexample: on an initialized pool whose terminating flag is
false, `stop(kill_abruptly = true)` leaves the terminating flag false —
`InjectionThreadPool.stop` never sets `_terminating` (only the base
`ThreadPool.stop`, which it overrides, does). -/
theorem stop_terminating_flag_counterexample :
    samplePool.initialized = true ∧
    samplePool.terminating = false ∧
    (InjectionThreadPool.stop true samplePool).1.terminating = false := by
  refine ⟨rfl, rfl, ?_⟩
  simp [InjectionThreadPool.stop, samplePool]

/-- C1 amended: on an initialized pool, `stop(kill_abruptly)` flags every
worker for termination, releases the queue semaphore once per worker,
notifies all waiters on the shared sleep condition, force-stops every
worker's child when `kill_abruptly` is true, joins all workers (clearing
the list), clears `initialized`, resets both session timestamps to 0 and
restores the retry flag — but leaves the pool's terminating flag
unchanged. -/
theorem stop_postconditions (kill : Bool) (s : InjPool)
    (h : s.initialized = true) :
    ((InjectionThreadPool.stop kill s).2.semReleases =
      s.workers.length) ∧
    ((InjectionThreadPool.stop kill s).2.joinedWorkers.all
      (fun w => w.terminateFlag) = true) ∧
    ((InjectionThreadPool.stop kill s).2.notifiedAll = true) ∧
    (kill = true →
      (InjectionThreadPool.stop kill s).2.joinedWorkers.all
        (fun w => !w.is_active) = true) ∧
    ((InjectionThreadPool.stop kill s).2.joinedWorkers.length =
      s.workers.length) ∧
    ((InjectionThreadPool.stop kill s).1.workers = []) ∧
    ((InjectionThreadPool.stop kill s).1.initialized = false) ∧
    ((InjectionThreadPool.stop kill s).1.sessionStart = 0) ∧
    ((InjectionThreadPool.stop kill s).1.sessionStartAbs = 0) ∧
    ((InjectionThreadPool.stop kill s).1.retryTasks = s.retryTasks) ∧
    ((InjectionThreadPool.stop kill s).1.terminating =
      s.terminating) := by
  simp only [InjectionThreadPool.stop, if_pos h]
  refine ⟨trivial, ?_, trivial, ?_, ?_, trivial, trivial, trivial,
    trivial, trivial, trivial⟩
  · cases kill <;>
      simp [List.all_eq_true, Worker.terminate, force_stop_process_flag]
  · intro hk
    subst hk
    simp [List.all_eq_true, force_stop_process_inactive]
  · cases kill <;> simp

/-- C1 witness: stopping the one-worker sample pool abruptly releases
the semaphore once (one worker). -/
theorem stop_postconditions_witness :
    samplePool.initialized = true ∧
    (InjectionThreadPool.stop true samplePool).2.semReleases = 1 :=
  ⟨rfl, ((stop_postconditions true samplePool rfl).1).trans rfl⟩

/-- C7: when the dequeued task's scheduled start has already passed
(`time_to_task < 0`) and the skip-expired policy is on, a live worker
emits exactly one terminal error event with return code -1 and returns
without any `start_process` call — no process is spawned. -/
theorem expired_task_skipped (cfg : ExecCfg) (task : Task)
    (tElapsed tSkip : Rat) (termAtSpawn popenOk : Bool) (tStart : Rat)
    (termAtNoneCheck : Bool) (rounds : List Round)
    (finalChunk : Option String)
    (h1 : timeToTask cfg task tElapsed < 0)
    (h2 : cfg.skipExpired = true) :
    executeTask cfg task tElapsed tSkip termAtSpawn popenOk tStart
      termAtNoneCheck rounds finalChunk false =
    { events := [Event.error (some tSkip) (-1) none], spawnCalls := [],
      crashed := false, stuck := false, forceStopped := false,
      finalRcode := some (-1) } := by
  simp [executeTask, h1, h2, InjectionThreadPool.process_result]

/-- C7 witness: a session at wall origin 0, a task scheduled at workload
time 0, dequeued at wall time 5 — the delay is -5 and the task is
skipped with a single error(-1) event and no spawn. -/
theorem expired_task_skipped_witness :
    (timeToTask sampleCfgRetry sampleTaskRetry 5 < 0 ∧
      sampleCfgRetry.skipExpired = true) ∧
    executeTask sampleCfgRetry sampleTaskRetry 5 6 false true 7 false []
      none false =
    { events := [Event.error (some 6) (-1) none], spawnCalls := [],
      crashed := false, stuck := false, forceStopped := false,
      finalRcode := some (-1) } :=
  ⟨⟨by norm_num [timeToTask, sampleCfgRetry, sampleTaskRetry], rfl⟩,
    expired_task_skipped sampleCfgRetry sampleTaskRetry 5 6 false true 7
      false [] none
      (by norm_num [timeToTask, sampleCfgRetry, sampleTaskRetry]) rfl⟩

/-- C3: the restart branch uses the re-spawn's result without a
none-check. In the execution where the child of a 10-second task exits
early (at 2s with code 0, retries on) and the re-spawn returns none
because the worker's terminate flag was set between iterations, the next
`p.wait` dereferences a none handle and the run crashes after emitting
`start` and `restart` — whereas the initial spawn's none result is
handled explicitly, producing a terminal error(-1) without a crash. -/
theorem restart_respawn_none_dereference :
    executeTask sampleCfgRetry sampleTaskRetry 0 0 false true 0 false
      [Round.exit 2 0 none true true 5] none false =
    { events := [Event.start 0, Event.restart 5 none],
      spawnCalls := [Args.list ["prog"], Args.list ["prog"]],
      crashed := true, stuck := false, forceStopped := false,
      finalRcode := none } ∧
    executeTask sampleCfgRetry sampleTaskRetry 0 0 false false 0 false
      [] none false =
    { events := [Event.error (some 0) (-1) none],
      spawnCalls := [Args.list ["prog"]], crashed := false,
      stuck := false, forceStopped := false,
      finalRcode := some (-1) } := by
  constructor <;>
  · norm_num [executeTask, executeTaskBody, superviseLoop, timeToTask,
      sampleCfgRetry, sampleTaskRetry, formattedTask, taskArgsOf,
      is_shell_script, shlexSplit, splitWsAux,
      InjectionThreadPool.format_task_args, VALUE_ALL_CORES,
      VALUE_DUR_NO_LIM, ThreadWrapper.start_process, argsContainSudo,
      SUDO_ID, InjectionThreadPool.inform_start,
      InjectionThreadPool.process_result, finalizeTask]
    decide

/-- C5: in the duration-supervision loop, after the child exits before
the deadline at `et` with `code` and remaining budget
`dur - (et - t0)` still positive, a fresh child with the same argv is
spawned and a restart event carrying the prior exit code is emitted if
and only if retries are on and (the exit code is zero or retry-on-error
is on); in every other case (remaining budget exhausted, retries off, or
nonzero exit with retry-on-error off) the loop breaks with the recorded
exit code and end time, emitting nothing further. -/
theorem retry_decision (rt roe root : Bool) (args : Args)
    (dur t0 : Rat) (p0 : Proc) (tout et : Rat) (code : Int)
    (chunk : Option String) (rTerm rOk : Bool) (rTime : Rat)
    (endT : Option Rat) (rc0 : Int) (out : String) (evs : List Event)
    (calls : List Args) (h0 : 0 < tout) :
    ((rt = true ∧ 0 < dur - (et - t0) ∧ (code = 0 ∨ roe = true)) →
      (superviseLoop rt roe root args dur t0
        [Round.exit et code chunk rTerm rOk rTime] (some p0) tout endT
        rc0 out evs calls).eventsOf =
        evs ++ [Event.restart rTime
          (if code = 0 then none else some code)] ∧
      (superviseLoop rt roe root args dur t0
        [Round.exit et code chunk rTerm rOk rTime] (some p0) tout endT
        rc0 out evs calls).spawnCallsOf = calls ++ [args]) ∧
    (¬(rt = true ∧ 0 < dur - (et - t0) ∧ (code = 0 ∨ roe = true)) →
      superviseLoop rt roe root args dur t0
        [Round.exit et code chunk rTerm rOk rTime] (some p0) tout endT
        rc0 out evs calls =
      LoopOut.ok (some p0) (some et) code out evs calls false) := by
  simp only [superviseLoop.eq_def, if_neg (not_le.mpr h0)]
  constructor
  · rintro ⟨hrt, hrem, hcode⟩
    subst hrt
    rw [if_pos ⟨rfl, hrem⟩,
      if_neg (show ¬(code ≠ 0 ∧ ¬(roe = true)) by
        rcases hcode with h | h <;> simp [h])]
    simp only [superviseLoop.eq_def, if_neg (not_le.mpr hrem)]
    cases hp : ThreadWrapper.start_process rTerm args root rOk with
    | none => exact ⟨rfl, rfl⟩
    | some p2 => exact ⟨rfl, rfl⟩
  · intro h
    by_cases houter : rt = true ∧ 0 < dur - (et - t0)
    · have hinner : code ≠ 0 ∧ ¬(roe = true) := by
        constructor
        · intro hc
          exact h ⟨houter.1, houter.2, Or.inl hc⟩
        · intro hr
          exact h ⟨houter.1, houter.2, Or.inr hr⟩
      rw [if_pos houter, if_pos hinner]
    · rw [if_neg houter]

/-- C5 witness: a child of a 10-second task exits cleanly at 2s with
retries on — the loop emits one restart event (null prior code) and
re-spawns the same argv. -/
theorem retry_decision_witness :
    ((0 : Rat) < 10 ∧ (true = true ∧ (0 : Rat) < 10 - (2 - 0) ∧
      ((0 : Int) = 0 ∨ false = true))) ∧
    (superviseLoop true false false (Args.list ["p"]) 10 0
      [Round.exit 2 0 none false true 3] (some ⟨none⟩) 10 none 0 "" []
      []).eventsOf = [Event.restart 3 none] :=
  ⟨⟨by norm_num, rfl, by norm_num, Or.inl rfl⟩,
    ((retry_decision true false false (Args.list ["p"]) 10 0 ⟨none⟩ 10 2
      0 none false true 3 none 0 "" [] [] (by norm_num)).1
      ⟨rfl, by norm_num, Or.inl rfl⟩).1.trans (by decide)⟩

/-- The formatter only mutates the task's cores field, so the duration
read after formatting is the task's duration. -/
theorem formattedTask_duration (cfg : ExecCfg) (task : Task) :
    (formattedTask cfg task).duration = task.duration := rfl

/-- C6: for a task with a finite positive duration whose child is still
running when the budget expires (the first wait times out), the child is
killed via `force_stop_process`, the final exit code handed to
`_process_result` is 0, and the terminal event emitted by a live worker
is `end` (success), not `error`. -/
theorem duration_timeout_success (cfg : ExecCfg) (task : Task)
    (tElapsed tSkip : Rat) (termAtSpawn popenOk : Bool) (tStart : Rat)
    (termAtNoneCheck : Bool) (kt : Rat) (rest : List Round)
    (finalChunk : Option String)
    (hnoskip : ¬(timeToTask cfg task tElapsed < 0 ∧
      cfg.skipExpired = true))
    (hspawn : ThreadWrapper.start_process termAtSpawn
      (taskArgsOf cfg task) cfg.root popenOk = some ⟨none⟩)
    (hdur : 0 < task.duration) :
    (executeTask cfg task tElapsed tSkip termAtSpawn popenOk tStart
      termAtNoneCheck (Round.timeout kt :: rest) finalChunk
      false).forceStopped = true ∧
    (executeTask cfg task tElapsed tSkip termAtSpawn popenOk tStart
      termAtNoneCheck (Round.timeout kt :: rest) finalChunk
      false).finalRcode = some 0 ∧
    ∃ o, (executeTask cfg task tElapsed tSkip termAtSpawn popenOk tStart
      termAtNoneCheck (Round.timeout kt :: rest) finalChunk
      false).events = [Event.start tStart, Event.ended (some kt) o] := by
  have hne : (formattedTask cfg task).duration ≠ VALUE_DUR_NO_LIM := by
    rw [formattedTask_duration, VALUE_DUR_NO_LIM]
    exact ne_of_gt hdur
  have hle : ¬((formattedTask cfg task).duration ≤ 0) := by
    rw [formattedTask_duration]
    exact not_le.mpr hdur
  simp only [executeTask, if_neg hnoskip, executeTaskBody, hspawn,
    if_pos hne, InjectionThreadPool.inform_start, Option.toList,
    superviseLoop.eq_def, if_neg hle, finalizeTask,
    InjectionThreadPool.process_result]
  exact ⟨trivial, trivial, ⟨_, rfl⟩⟩

/-- C6 witness: the 10-second sample task spawned at the session origin
with the first wait timing out at 10 — the child is force-stopped and
the final code handed to terminal emission is 0. -/
theorem duration_timeout_success_witness :
    (¬(timeToTask sampleCfgRetry sampleTaskRetry 0 < 0 ∧
        sampleCfgRetry.skipExpired = true) ∧
      ThreadWrapper.start_process false
        (taskArgsOf sampleCfgRetry sampleTaskRetry)
        sampleCfgRetry.root true = some ⟨none⟩ ∧
      (0 : Rat) < sampleTaskRetry.duration) ∧
    (executeTask sampleCfgRetry sampleTaskRetry 0 0 false true 0 false
      [Round.timeout 10] none false).forceStopped = true ∧
    (executeTask sampleCfgRetry sampleTaskRetry 0 0 false true 0 false
      [Round.timeout 10] none false).finalRcode = some 0 :=
  ⟨⟨by norm_num [timeToTask, sampleCfgRetry, sampleTaskRetry],
    by decide, by norm_num [sampleTaskRetry]⟩,
    (duration_timeout_success sampleCfgRetry sampleTaskRetry 0 0 false
      true 0 false 10 [] none
      (by norm_num [timeToTask, sampleCfgRetry, sampleTaskRetry])
      (by decide) (by norm_num [sampleTaskRetry])).1,
    (duration_timeout_success sampleCfgRetry sampleTaskRetry 0 0 false
      true 0 false 10 [] none
      (by norm_num [timeToTask, sampleCfgRetry, sampleTaskRetry])
      (by decide) (by norm_num [sampleTaskRetry])).2.1⟩

/-- C2 counterexample: with an active session whose wall origin is 100,
a task spawned at wall time 150 produces a start event stamped 150 — the
raw wall-clock reading — whereas the spawn time translated through the
clock corrector into workload time is 50. The emitted timestamp is not
the workload translation the claim asserts. -/
theorem start_event_not_translated_counterexample :
    (executeTask sampleCfgSession sampleTaskScheduled 150 0 false true
      150 false [Round.exit 160 0 none false false 0] none
      false).events =
      [Event.start 150, Event.ended (some 160) none] ∧
    specStartWorkloadTs sampleCfgSession 150 = 50 ∧
    (150 : Rat) ≠ 50 := by
  refine ⟨?_, ?_, by norm_num⟩
  · norm_num [executeTask, executeTaskBody, superviseLoop, timeToTask,
      sampleCfgSession, sampleTaskScheduled, formattedTask, taskArgsOf,
      is_shell_script, shlexSplit, splitWsAux,
      InjectionThreadPool.format_task_args, VALUE_ALL_CORES,
      VALUE_DUR_NO_LIM, ThreadWrapper.start_process, argsContainSudo,
      SUDO_ID, InjectionThreadPool.inform_start,
      InjectionThreadPool.process_result, finalizeTask]
    decide
  · norm_num [specStartWorkloadTs, sampleCfgSession]

/-- C2 amended: for every task that is successfully spawned, the start
event is stamped with the raw absolute wall-clock `time()` reading taken
just before the spawn — no translation through the clock corrector into
workload time is applied. -/
theorem start_event_raw_wall_time (cfg : ExecCfg) (task : Task)
    (tElapsed tSkip : Rat) (termAtSpawn popenOk : Bool) (tStart : Rat)
    (termAtNoneCheck : Bool) (rounds : List Round)
    (finalChunk : Option String) (termAtEmit : Bool)
    (hnoskip : ¬(timeToTask cfg task tElapsed < 0 ∧
      cfg.skipExpired = true))
    (hspawn : ThreadWrapper.start_process termAtSpawn
      (taskArgsOf cfg task) cfg.root popenOk = some ⟨none⟩) :
    (executeTask cfg task tElapsed tSkip termAtSpawn popenOk tStart
      termAtNoneCheck rounds finalChunk termAtEmit).events.head? =
      some (Event.start tStart) := by
  simp only [executeTask, if_neg hnoskip, executeTaskBody, hspawn,
    InjectionThreadPool.inform_start, Option.toList]
  split
  · split
    · simp [finalizeTask]
    · simp
  · split
    · rename_i pEnd endTime rcode out evs calls fs heq
      cases pEnd <;> simp [finalizeTask]
    · simp
    · simp

/-- C2 witness: the sample session run spawning at wall time 150 emits
its start event stamped with the raw reading 150. -/
theorem start_event_raw_wall_time_witness :
    (¬(timeToTask sampleCfgSession sampleTaskScheduled 150 < 0 ∧
        sampleCfgSession.skipExpired = true) ∧
      ThreadWrapper.start_process false
        (taskArgsOf sampleCfgSession sampleTaskScheduled)
        sampleCfgSession.root true = some ⟨none⟩) ∧
    (executeTask sampleCfgSession sampleTaskScheduled 150 0 false true
      150 false [Round.exit 160 0 none false false 0] none
      false).events.head? = some (Event.start 150) :=
  ⟨⟨by norm_num [timeToTask, sampleCfgSession, sampleTaskScheduled],
    by decide⟩,
    start_event_raw_wall_time sampleCfgSession sampleTaskScheduled 150 0
      false true 150 false [Round.exit 160 0 none false false 0] none
      false
      (by norm_num [timeToTask, sampleCfgSession, sampleTaskScheduled])
      (by decide)⟩

end FaultInjector
